import Mathlib

/-!
Verification of the code-generation back end in `crates/compiler/src/codegen.rs`.

The Rust code streams bytes into an `io::Write` sink while threading a
`CodeWriter` state (indentation level and pending closing brackets).  The
shallow embedding below models the sink as an accumulated `String` inside the
writer state.  A Rust `panic!`, `todo!` or failed debug assertion is modelled
as the `GenAbort.panic` error of an `Except`; an `io` write failure would be
`GenAbort.ioError`, and since the reference test harness writes into an
infallible `Vec<u8>` sink, no operation in this model ever constructs it.
The `?` operator of the source is translated as an explicit `match` on the
`Except` value.
-/

namespace Codegen

/-- Abnormal termination of a generation call: a fatal panic (assertion,
`todo!`, contract violation) or a sink write failure. -/
inductive GenAbort where
  | panic (msg : String)
  | ioError (msg : String)
  deriving DecidableEq

/-- Modelled from the spec: a runtime helper symbol carries a canonical name
taken from the shared naming table between front end and generator; the
`RuntimeHelper` enum and its `helper_str` method live in the converter module,
which is not part of the sources.  Only the canonical name is observable from
the code generator. -/
structure RuntimeHelper where
  helper_str : String
  deriving DecidableEq

/-- Modelled from the spec: the static level attached to a `Simple`
expression by the converter (missing from the sources); the code generator
never reads it. -/
structure StaticLevel where

/-- Modelled from the spec: the payload of a `Props` expression; the spec
leaves the properties-object design open and `generate_js_expr` panics with
`todo!` before inspecting it. -/
structure PropsData where

/-- Modelled from the spec: payload of a conditional IR node (converter type
missing from the sources); `generate_if` is `todo!` and never reads it. -/
structure IfNodeIR where

/-- Modelled from the spec: payload of a loop IR node; `generate_for` is
`todo!` and never reads it. -/
structure ForNodeIR where

/-- Modelled from the spec: payload of an element/component construction IR
node; `generate_vnode` is `todo!` and never reads it. -/
structure VNodeIR where

/-- Modelled from the spec: payload of a slot-outlet IR node;
`generate_slot_outlet` is `todo!` and never reads it. -/
structure RenderSlotIR where

/-- Modelled from the spec: payload of a slot-definition IR node;
`generate_v_slot` is `todo!` and never reads it. -/
structure VSlotIR where

/-- Modelled from the spec: payload of an alterable-slot IR node; the
generator panics before reading it. -/
structure AlterableSlotIR where

/-- The output-expression algebra `JsExpr` of the converter, as consumed by
`generate_js_expr`: raw source, string literal, lowered simple expression,
helper symbol, properties object, compound, array and helper call. -/
inductive Js where
  | Src (s : String)
  | StrLit (l : String)
  | Simple (e : String) (level : StaticLevel)
  | Symbol (s : RuntimeHelper)
  | Props (p : PropsData)
  | Compound (v : List Js)
  | Array (a : List Js)
  | Call (c : RuntimeHelper) (args : List Js)

/-- Modelled from the spec: `VStr.be_js_str` (in the util module, missing from
the sources) applies the JS string-literal quoting rule to decoded text before
emission; the spec fixes only that the text is quoted per dialect. -/
def be_js_str (l : String) : String :=
  "\x22" ++ l ++ "\x22"

mutual

/-- The recursive expression emitter `generate_js_expr`, purified: it returns
the bytes it would write to the sink, or the panic raised before returning
(`Props` is `todo!` in the source). -/
def generate_js_expr : Js → Except GenAbort String
  | .Src s => .ok s
  | .StrLit l => .ok (be_js_str l)
  | .Simple e _ => .ok e
  | .Symbol s => .ok ("_" ++ s.helper_str)
  | .Props _ => .error (.panic "not yet implemented")
  | .Compound v => genCompound v
  | .Array a =>
    match gen_comma_separated a with
    | .error er => .error er
    | .ok s => .ok ("[" ++ s ++ "]")
  | .Call c args =>
    match gen_comma_separated args with
    | .error er => .error er
    | .ok s => .ok ("_" ++ c.helper_str ++ "(" ++ s ++ ")")

/-- The `Js::Compound` arm of `generate_js_expr`: emit every sub-expression in
order, no separator. -/
def genCompound : List Js → Except GenAbort String
  | [] => .ok ""
  | e :: rest =>
    match generate_js_expr e with
    | .error er => .error er
    | .ok s =>
      match genCompound rest with
      | .error er => .error er
      | .ok s2 => .ok (s ++ s2)

/-- The shared helper `gen_comma_separated`: emit the first expression, then a
comma-space separator before each subsequent one; an empty list emits
nothing. -/
def gen_comma_separated : List Js → Except GenAbort String
  | [] => .ok ""
  | e :: rest =>
    match generate_js_expr e with
    | .error er => .error er
    | .ok s =>
      match genCommaSepRest rest with
      | .error er => .error er
      | .ok s2 => .ok (s ++ s2)

/-- The tail loop of `gen_comma_separated`: a separator before every
element. -/
def genCommaSepRest : List Js → Except GenAbort String
  | [] => .ok ""
  | e :: rest =>
    match generate_js_expr e with
    | .error er => .error er
    | .ok s =>
      match genCommaSepRest rest with
      | .error er => .error er
      | .ok s2 => .ok (", " ++ s ++ s2)

end

/-- The tail loop of `generate_text`: the binary concatenation operator
before every element after the first. -/
def textRest : List Js → Except GenAbort String
  | [] => .ok ""
  | t :: rest =>
    match generate_js_expr t with
    | .error er => .error er
    | .ok s =>
      match textRest rest with
      | .error er => .error er
      | .ok s2 => .ok (" + " ++ s ++ s2)

/-- The text-node emitter `generate_text`: emit the first expression (nothing
for an empty list), then ` + ` before each subsequent expression. -/
def generate_text (ts : List Js) : Except GenAbort String :=
  match ts with
  | [] => .ok ""
  | t :: rest =>
    match generate_js_expr t with
    | .error er => .error er
    | .ok s =>
      match textRest rest with
      | .error er => .error er
      | .ok s2 => .ok (s ++ s2)

/-- The IR node set dispatched on by `generate_root`. -/
inductive IRNode where
  | TextCall (t : List Js)
  | If (v : IfNodeIR)
  | For (v : ForNodeIR)
  | VNodeCall (v : VNodeIR)
  | RenderSlotCall (r : RenderSlotIR)
  | VSlotUse (s : VSlotIR)
  | CommentCall (c : String)
  | GenericExpression (e : Js)
  | AlterableSlot (a : AlterableSlotIR)

/-- The root IR tree: one root holding the ordered list of body nodes (the
converter type is parameterized over the IR flavor; only the body is read by
the code generator). -/
structure IRRoot where
  body : List IRNode

/-- One fragment of decoded text: a borrowed slice of the original source or
an owned decoded string (`Cow` in the source). -/
inductive CowStr where
  | borrowed (s : String)
  | owned (s : String)
  deriving DecidableEq

/-- DecodedStr represents text after decoding html entities: an ordered
sequence of fragments. -/
structure DecodedStr where
  fragments : List CowStr
  deriving DecidableEq

/-- The `From` conversion of a plain string slice into `DecodedStr`: a debug
assertion that the input is non-empty, then a one-element sequence holding the
input borrowed. -/
def decodedStrFrom (decoded : String) : Except GenAbort DecodedStr :=
  if decoded = "" then .error (.panic "assertion failed: !decoded.is_empty()")
  else .ok ⟨[CowStr.borrowed decoded]⟩

/-- The pluggable entity decoder `EntityDecoder`; the error case carries the
debug-assertion panic of `decodedStrFrom`. -/
def EntityDecoder : Type :=
  String → Bool → Except GenAbort DecodedStr

/-- The generation configuration `CodeGenerateOption`. -/
structure CodeGenerateOption where
  is_ts : Bool
  source_map : Bool
  filename : String
  decode_entities : EntityDecoder

/-- The `Default` instance of `CodeGenerateOption`: plain JS, no source map,
empty filename, entity-free decoding via `decodedStrFrom`. -/
def CodeGenerateOption.default : CodeGenerateOption where
  is_ts := false
  source_map := false
  filename := ""
  decode_entities := fun s _ => decodedStrFrom s

/-- The emitter state `CodeWriter`: the byte sink (modelled as the string of
bytes written so far), the configuration, the indentation level and the
pending closing-brackets counter. -/
structure CodeWriter where
  writer : String
  option : CodeGenerateOption
  indent_level : Nat
  closing_brackets : Nat

/-- Indentation padding: the two-space unit repeated `n` times. -/
def indentPad (n : Nat) : String :=
  String.join (List.replicate n "  ")

/-- Append bytes to the sink. -/
def writeStr (s : String) (w : CodeWriter) : CodeWriter :=
  { w with writer := w.writer ++ s }

/-- The `newline` helper: a line break followed by the current indentation
padding. -/
def newline (w : CodeWriter) : CodeWriter :=
  writeStr ("\n" ++ indentPad w.indent_level) w

/-- The `indent` helper: increase depth, then emit a newline at the new
depth. -/
def indent (w : CodeWriter) : CodeWriter :=
  newline { w with indent_level := w.indent_level + 1 }

/-- The `deindent` helper: decrease depth and optionally emit the newline for
the next line. -/
def deindent (with_new_line : Bool) (w : CodeWriter) : CodeWriter :=
  let w := { w with indent_level := w.indent_level - 1 }
  if with_new_line then newline w else w

/-- The preamble for import helpers or hoists outside the function. -/
def generate_preamble (w : CodeWriter) : CodeWriter :=
  writeStr "return " w

/-- The function signature emitter: open the render-function block, count it,
indent. -/
def generate_function_signature (w : CodeWriter) : CodeWriter :=
  let w := writeStr "function render(_ctx, _cache) \x7b" w
  let w := { w with closing_brackets := w.closing_brackets + 1 }
  indent w

/-- The enclosing-scope block emitter: open the `with` block, count it,
indent. -/
def generate_with_block (w : CodeWriter) : CodeWriter :=
  let w := writeStr "with (_ctx) \x7b" w
  let w := { w with closing_brackets := w.closing_brackets + 1 }
  indent w

/-- The asset-resolution emitter (a TODO stub in the source that emits
nothing and succeeds). -/
def generate_assets (w : CodeWriter) : CodeWriter :=
  w

/-- The prologue: preamble, function signature, enclosing-scope block, assets,
then the start of the return statement.  The root argument is not read. -/
def generate_prologue (_root : IRRoot) (w : CodeWriter) : CodeWriter :=
  writeStr "return " (generate_assets (generate_with_block (generate_function_signature (generate_preamble w))))

/-- The epilogue loop body, iterated once per pending closing bracket: a
deindent with newline, then a closing brace. -/
def epilogueIter : Nat → CodeWriter → CodeWriter
  | 0, w => w
  | n + 1, w => epilogueIter n (writeStr "\x7d" (deindent true w))

/-- The epilogue `generate_epilogue`: one closing brace per counted open
block, each preceded by a deindent and a newline, followed by the debug
assertion that the indentation level is back to zero.  The loop bound is the
value of the counter; the counter itself is not modified. -/
def generate_epilogue (w : CodeWriter) : Except GenAbort CodeWriter :=
  let w2 := epilogueIter w.closing_brackets w
  if w2.indent_level = 0 then .ok w2
  else .error (.panic "assertion failed: indent_level == 0")

/-- Dispatch of one body node inside `generate_root`: text and generic
expressions emit bytes; conditional, loop, construction, slot and comment
nodes are `todo!` in the source; an alterable slot is a contract violation
and panics. -/
def genNode (n : IRNode) (w : CodeWriter) : Except GenAbort CodeWriter :=
  match n with
  | .TextCall t =>
    match generate_text t with
    | .error er => .error er
    | .ok s => .ok (writeStr s w)
  | .If _ => .error (.panic "not yet implemented")
  | .For _ => .error (.panic "not yet implemented")
  | .VNodeCall _ => .error (.panic "not yet implemented")
  | .RenderSlotCall _ => .error (.panic "not yet implemented")
  | .VSlotUse _ => .error (.panic "not yet implemented")
  | .CommentCall _ => .error (.panic "not yet implemented")
  | .GenericExpression e =>
    match generate_js_expr e with
    | .error er => .error er
    | .ok s => .ok (writeStr s w)
  | .AlterableSlot _ => .error (.panic "alterable slot should be compiled")

/-- The body loop of `generate_root`: dispatch every body node in document
order, aborting at the first panic. -/
def genBody : List IRNode → CodeWriter → Except GenAbort CodeWriter
  | [], w => .ok w
  | n :: rest, w =>
    match genNode n w with
    | .error er => .error er
    | .ok w2 => genBody rest w2

/-- The root generation `generate_root`: prologue, then either the null
literal for an empty body or the body loop, then the epilogue. -/
def generate_root (root : IRRoot) (w : CodeWriter) : Except GenAbort CodeWriter :=
  let w := generate_prologue root w
  let r := if root.body.isEmpty then .ok (writeStr "null" w) else genBody root.body w
  match r with
  | .error er => .error er
  | .ok w2 => generate_epilogue w2

/-- The writer the reference test harness starts from: empty sink, depth zero,
no pending brackets. -/
def baseWriter (o : CodeGenerateOption) : CodeWriter :=
  { writer := "", option := o, indent_level := 0, closing_brackets := 0 }

/-- Sequential emission of a list of expressions, collecting the bytes of each
element separately (the specification-side view of the emission loops). -/
def genEach : List Js → Except GenAbort (List String)
  | [] => .ok []
  | e :: rest =>
    match generate_js_expr e with
    | .error er => .error er
    | .ok s =>
      match genEach rest with
      | .error er => .error er
      | .ok ss => .ok (s :: ss)

/-- Join tail: a copy of the separator before every element. -/
def joinRest (sep : String) : List String → String
  | [] => ""
  | s :: rest => sep ++ s ++ joinRest sep rest

/-- Join a list of strings with a separator between consecutive elements: a
list of N elements contains exactly N - 1 separators, the empty list gives the
empty string. -/
def joinSep (sep : String) : List String → String
  | [] => ""
  | s :: rest => s ++ joinRest sep rest

/-- Concatenation of a list of strings with no separator. -/
def concatAll : List String → String
  | [] => ""
  | s :: rest => s ++ concatAll rest


/-! Helper lemmas shared by the claim theorems. -/

theorem strA (a b c : String) : a ++ b ++ c = a ++ (b ++ c) := by
  apply String.ext
  simp [String.data_append]

theorem str_append_empty (a : String) : a ++ "" = a := by
  apply String.ext
  simp [String.data_append]

theorem append_close_braces (a : String) :
    a ++ "\n  " ++ "\x7d" ++ "\n" ++ "\x7d" = a ++ "\n  \x7d\n\x7d" := by
  calc a ++ "\n  " ++ "\x7d" ++ "\n" ++ "\x7d"
      = a ++ ("\n  " ++ ("\x7d" ++ ("\n" ++ "\x7d"))) := by simp [strA]
    _ = a ++ "\n  \x7d\n\x7d" := rfl

theorem textRest_eq (ts : List Js) : textRest ts = (genEach ts).map (joinRest " + ") := by
  induction ts with
  | nil => rfl
  | cons t rest ih =>
    simp only [textRest, genEach, ih]
    cases generate_js_expr t <;> cases genEach rest <;> simp [Except.map, joinRest]

theorem generate_text_eq (ts : List Js) :
    generate_text ts = (genEach ts).map (joinSep " + ") := by
  cases ts with
  | nil => rfl
  | cons t rest =>
    simp only [generate_text, genEach, textRest_eq]
    cases generate_js_expr t <;> cases genEach rest <;> simp [Except.map, joinSep]

theorem genCompound_eq (v : List Js) : genCompound v = (genEach v).map concatAll := by
  induction v with
  | nil => rfl
  | cons e rest ih =>
    simp only [genCompound, genEach, ih]
    cases generate_js_expr e <;> cases genEach rest <;> simp [Except.map, concatAll]

theorem genCommaSepRest_eq (ts : List Js) :
    genCommaSepRest ts = (genEach ts).map (joinRest ", ") := by
  induction ts with
  | nil => rfl
  | cons t rest ih =>
    simp only [genCommaSepRest, genEach, ih]
    cases generate_js_expr t <;> cases genEach rest <;> simp [Except.map, joinRest]

theorem gen_comma_separated_eq (ts : List Js) :
    gen_comma_separated ts = (genEach ts).map (joinSep ", ") := by
  cases ts with
  | nil => rfl
  | cons t rest =>
    simp only [gen_comma_separated, genEach, genCommaSepRest_eq]
    cases generate_js_expr t <;> cases genEach rest <;> simp [Except.map, joinSep]

theorem genBody_append (xs ys : List IRNode) (w : CodeWriter) :
    genBody (xs ++ ys) w
      = match genBody xs w with
        | .error er => .error er
        | .ok w2 => genBody ys w2 := by
  induction xs generalizing w with
  | nil => rfl
  | cons n rest ih =>
    simp only [List.cons_append, genBody]
    cases genNode n w <;> simp [ih]

theorem genNode_preserves (n : IRNode) (w w2 : CodeWriter) (h : genNode n w = .ok w2) :
    w2.option = w.option ∧ w2.indent_level = w.indent_level ∧
    w2.closing_brackets = w.closing_brackets ∧ ∃ s, w2.writer = w.writer ++ s := by
  cases n with
  | TextCall t =>
    cases hg : generate_text t with
    | error er => simp [genNode, hg] at h
    | ok s =>
      simp only [genNode, hg, Except.ok.injEq] at h
      subst h
      exact ⟨rfl, rfl, rfl, s, rfl⟩
  | GenericExpression e =>
    cases hg : generate_js_expr e with
    | error er => simp [genNode, hg] at h
    | ok s =>
      simp only [genNode, hg, Except.ok.injEq] at h
      subst h
      exact ⟨rfl, rfl, rfl, s, rfl⟩
  | If v => simp [genNode] at h
  | For v => simp [genNode] at h
  | VNodeCall v => simp [genNode] at h
  | RenderSlotCall v => simp [genNode] at h
  | VSlotUse v => simp [genNode] at h
  | CommentCall c => simp [genNode] at h
  | AlterableSlot a => simp [genNode] at h

theorem genBody_preserves (ns : List IRNode) (w w2 : CodeWriter) (h : genBody ns w = .ok w2) :
    w2.option = w.option ∧ w2.indent_level = w.indent_level ∧
    w2.closing_brackets = w.closing_brackets ∧ ∃ s, w2.writer = w.writer ++ s := by
  induction ns generalizing w with
  | nil =>
    simp only [genBody, Except.ok.injEq] at h
    subst h
    exact ⟨rfl, rfl, rfl, "", (str_append_empty w.writer).symm⟩
  | cons n rest ih =>
    simp only [genBody] at h
    cases hn : genNode n w with
    | error er => rw [hn] at h; exact Except.noConfusion h
    | ok wm =>
      rw [hn] at h
      obtain ⟨ho1, hi1, hc1, s1, hw1⟩ := genNode_preserves n w wm hn
      obtain ⟨ho2, hi2, hc2, s2, hw2⟩ := ih wm h
      exact ⟨ho2.trans ho1, hi2.trans hi1, hc2.trans hc1, s1 ++ s2, by rw [hw2, hw1, strA]⟩

theorem generate_prologue_base (o : CodeGenerateOption) (root : IRRoot) :
    generate_prologue root (baseWriter o)
      = { writer := "return function render(_ctx, _cache) \x7b\n  with (_ctx) \x7b\n    return ",
          option := o, indent_level := 2, closing_brackets := 2 } := rfl

theorem generate_epilogue_22 (w : CodeWriter) (h1 : w.indent_level = 2)
    (h2 : w.closing_brackets = 2) :
    generate_epilogue w
      = .ok { writer := w.writer ++ "\n  " ++ "\x7d" ++ "\n" ++ "\x7d",
              option := w.option, indent_level := 0, closing_brackets := 2 } := by
  obtain ⟨wr, o, il, cb⟩ := w
  have h1' : il = 2 := h1
  have h2' : cb = 2 := h2
  subst h1'
  subst h2'
  rfl


/-! Claim theorems. -/

/-- Claim C1 (evaluation at the failing input): a root whose body holds two
generic-expression nodes is generated successfully, the two expressions being
emitted back-to-back with no wrapping combinator, no separator and no
defensive assertion; the returned expression of the render function is the
bare juxtaposition `ab`. -/
theorem C1_two_body_nodes_back_to_back :
    generate_root ⟨[IRNode.GenericExpression (Js.Src "a"), IRNode.GenericExpression (Js.Src "b")]⟩
        (baseWriter CodeGenerateOption.default)
      = .ok { writer := "return function render(_ctx, _cache) \x7b\n  with (_ctx) \x7b\n    return ab\n  \x7d\n\x7d",
              option := CodeGenerateOption.default, indent_level := 0, closing_brackets := 2 } := rfl

/-- Claim C2: whenever the body of a root contains an alterable-slot node and
every body node before it is emitted without aborting, root generation stops
at that node with the fatal panic `alterable slot should be compiled` - the
node is neither skipped nor emitted, and the outcome is a panic, not an
ordinary recoverable error value. -/
theorem C2_alterable_slot_aborts (o : CodeGenerateOption) (pre rest : List IRNode)
    (a : AlterableSlotIR) (w1 : CodeWriter)
    (h : genBody pre (generate_prologue ⟨pre ++ IRNode.AlterableSlot a :: rest⟩ (baseWriter o)) = .ok w1) :
    generate_root ⟨pre ++ IRNode.AlterableSlot a :: rest⟩ (baseWriter o)
      = .error (.panic "alterable slot should be compiled") := by
  have hne : (pre ++ IRNode.AlterableSlot a :: rest).isEmpty = false := by
    cases pre <;> rfl
  simp only [generate_root, hne, Bool.false_eq_true, if_false]
  rw [genBody_append, h]
  rfl

/-- Witness for C2 at a concrete root: a text node followed by an alterable
slot panics. -/
theorem C2_alterable_slot_aborts_w :
    generate_root ⟨[IRNode.TextCall [Js.Src "x"], IRNode.AlterableSlot ⟨⟩]⟩
        (baseWriter CodeGenerateOption.default)
      = .error (.panic "alterable slot should be compiled") :=
  C2_alterable_slot_aborts CodeGenerateOption.default [IRNode.TextCall [Js.Src "x"]] [] ⟨⟩
    { writer := "return function render(_ctx, _cache) \x7b\n  with (_ctx) \x7b\n    return x",
      option := CodeGenerateOption.default, indent_level := 2, closing_brackets := 2 }
    rfl

/-- Claim C3: for every configuration, a root with an empty body generates a
render function whose returned expression is the `null` literal; the entire
output is one fixed string, independent of `is_ts`, `source_map`, `filename`
and the entity decoder. -/
theorem C3_empty_root_emits_null (o : CodeGenerateOption) :
    generate_root ⟨[]⟩ (baseWriter o)
      = .ok { writer := "return function render(_ctx, _cache) \x7b\n  with (_ctx) \x7b\n    return null\n  \x7d\n\x7d",
              option := o, indent_level := 0, closing_brackets := 2 } := rfl

/-- Claim C4: text-node emission joins the emitted expressions in order with
the binary ` + ` operator between consecutive elements, and a single-element
list is emitted exactly as the element itself, with no operator inserted. -/
theorem C4_text_concatenation (ts : List Js) (hne : ts ≠ []) :
    generate_text ts = (genEach ts).map (joinSep " + ") ∧
    ∀ t, ts = [t] → generate_text ts = generate_js_expr t := by
  refine ⟨generate_text_eq ts, ?_⟩
  rintro t rfl
  cases hg : generate_js_expr t with
  | error er => simp [generate_text, hg]
  | ok s => simp [generate_text, textRest, hg, str_append_empty]

/-- Witness for C4 at the spec example: the two string literals hello and
world are joined by the concatenation operator. -/
theorem C4_text_concatenation_w :
    generate_text [Js.StrLit "hello", Js.StrLit "world"]
      = (genEach [Js.StrLit "hello", Js.StrLit "world"]).map (joinSep " + ") :=
  (C4_text_concatenation [Js.StrLit "hello", Js.StrLit "world"] (List.cons_ne_nil _ _)).1

/-- Claim C5: the comma-separated list helper emits the elements joined by a
comma-space separator between consecutive elements (hence exactly N - 1
separators for N elements) and zero bytes for the empty list, while the array
brackets and the call parentheses enclose the list for every N. -/
theorem C5_comma_separated_law (es : List Js) (c : RuntimeHelper) :
    gen_comma_separated es = (genEach es).map (joinSep ", ") ∧
    gen_comma_separated ([] : List Js) = .ok "" ∧
    generate_js_expr (.Array es) = (gen_comma_separated es).map (fun s => "[" ++ s ++ "]") ∧
    generate_js_expr (.Call c es)
      = (gen_comma_separated es).map (fun s => "_" ++ c.helper_str ++ "(" ++ s ++ ")") := by
  refine ⟨gen_comma_separated_eq es, rfl, ?_, ?_⟩
  · simp only [generate_js_expr]
    cases gen_comma_separated es <;> simp [Except.map]
  · simp only [generate_js_expr]
    cases gen_comma_separated es <;> simp [Except.map]

/-- Claim C6: a helper-symbol emission is exactly the fixed underscore prefix
followed immediately by the canonical helper name, and a call emission is
exactly that prefix and name followed by the parenthesized argument list -
the prefix appears exactly once, never doubled, never omitted. -/
theorem C6_helper_naming (hs : RuntimeHelper) (args : List Js) :
    generate_js_expr (.Symbol hs) = .ok ("_" ++ hs.helper_str) ∧
    generate_js_expr (.Call hs args)
      = (gen_comma_separated args).map (fun s => "_" ++ hs.helper_str ++ "(" ++ s ++ ")") := by
  refine ⟨rfl, ?_⟩
  simp only [generate_js_expr]
  cases gen_comma_separated args <;> simp [Except.map]

/-- Claim C7 (counterexample): after a successful root generation from depth
zero and counter zero, the pending closing-brackets counter is 2, not 0 - the
epilogue loop uses the counter as its bound and never decrements it, so the
claim that the open-block counter has reached zero at the end of the epilogue
is false. -/
theorem C7_counter_brackets_not_zero :
    (generate_root ⟨[]⟩ (baseWriter CodeGenerateOption.default)).map
        (fun w => w.closing_brackets) = .ok 2 ∧
    (generate_root ⟨[]⟩ (baseWriter CodeGenerateOption.default)).map
        (fun w => w.closing_brackets) ≠ .ok 0 := by
  refine ⟨rfl, fun h => ?_⟩
  have h2 : (Except.ok 2 : Except GenAbort Nat) = .ok 0 := h
  exact absurd (Except.ok.inj h2) (by decide)

/-- Claim C7 (amended): every successful root generation starting from
indentation depth zero and counter zero ends with indentation depth zero and
with the output closed by one brace per opened structural block, each
preceded by an indentation decrement and a newline (the inner block closed
first, at depth one, then the outer block at depth zero); the open-block
counter is left unchanged at 2, the number of opened blocks, rather than
being decremented to zero. -/
theorem C7_epilogue_balanced (o : CodeGenerateOption) (root : IRRoot) (w2 : CodeWriter)
    (h : generate_root root (baseWriter o) = .ok w2) :
    w2.indent_level = 0 ∧ w2.closing_brackets = 2 ∧
    ∃ s, w2.writer = s ++ "\n  \x7d\n\x7d" := by
  simp only [generate_root, generate_prologue_base] at h
  cases hb : root.body.isEmpty with
  | true =>
    rw [hb] at h
    simp only [if_true] at h
    rw [generate_epilogue_22 _ rfl rfl] at h
    have h' := Except.ok.inj h
    subst h'
    exact ⟨rfl, rfl, _, append_close_braces _⟩
  | false =>
    rw [hb] at h
    simp only [Bool.false_eq_true, if_false] at h
    cases hg : genBody root.body { writer := "return function render(_ctx, _cache) \x7b\n  with (_ctx) \x7b\n    return ", option := o, indent_level := 2, closing_brackets := 2 } with
    | error er => rw [hg] at h; exact Except.noConfusion h
    | ok wB =>
      rw [hg] at h
      change generate_epilogue wB = Except.ok w2 at h
      obtain ⟨-, hi, hc, -⟩ := genBody_preserves _ _ _ hg
      rw [generate_epilogue_22 wB hi hc] at h
      have h' := Except.ok.inj h
      subst h'
      exact ⟨rfl, rfl, wB.writer, append_close_braces _⟩

/-- Witness for the amended C7 at the empty root. -/
theorem C7_epilogue_balanced_w :
    ({ writer := "return function render(_ctx, _cache) \x7b\n  with (_ctx) \x7b\n    return null\n  \x7d\n\x7d",
       option := CodeGenerateOption.default, indent_level := 0, closing_brackets := 2 } : CodeWriter).indent_level = 0 ∧
    ({ writer := "return function render(_ctx, _cache) \x7b\n  with (_ctx) \x7b\n    return null\n  \x7d\n\x7d",
       option := CodeGenerateOption.default, indent_level := 0, closing_brackets := 2 } : CodeWriter).closing_brackets = 2 :=
  ⟨(C7_epilogue_balanced CodeGenerateOption.default ⟨[]⟩ _ rfl).1,
   (C7_epilogue_balanced CodeGenerateOption.default ⟨[]⟩ _ rfl).2.1⟩

/-- Claim C8: a compound expression is emitted as the recursive emission of
each sub-expression in list order concatenated with no separator bytes
between them. -/
theorem C8_compound_no_separator (v : List Js) :
    generate_js_expr (.Compound v) = (genEach v).map concatAll :=
  genCompound_eq v

/-- Claim C9: for every non-empty input string, the entity-free conversion
into decoded text yields exactly one fragment, a borrowed reference to the
original input; the fragment sequence of any such result is non-empty, and
the default configuration decodes through exactly this conversion. -/
theorem C9_single_fragment_passthrough (s : String) (h : s ≠ "") :
    decodedStrFrom s = .ok ⟨[CowStr.borrowed s]⟩ ∧
    (∀ d, decodedStrFrom s = .ok d → d.fragments ≠ []) ∧
    (∀ b, CodeGenerateOption.default.decode_entities s b = decodedStrFrom s) := by
  refine ⟨?_, ?_, fun b => rfl⟩
  · simp [decodedStrFrom, h]
  · intro d hd
    simp only [decodedStrFrom, h, if_false, Except.ok.injEq] at hd
    subst hd
    simp

/-- Witness for C9 at the input hello. -/
theorem C9_single_fragment_passthrough_w :
    decodedStrFrom "hello" = .ok ⟨[CowStr.borrowed "hello"]⟩ :=
  (C9_single_fragment_passthrough "hello" (by decide)).1

/-- Claim C10: text-node emission applied to an empty expression list
succeeds and emits zero bytes, with no concatenation operator. -/
theorem C10_empty_text_call : generate_text [] = .ok "" := rfl

end Codegen
